import Mathlib

/-!
Verification of the stock-availability tracker (src/main.py) against its
specification.  The script's state-mutating loops are embedded as pure
functions over lists: each loop appends at most one element per input item,
so it is a `filterMap` of a per-item case function.  Python dicts are
embedded as association lists with last-write-wins lookup, and the file
system as an explicit record of the two snapshot files' optional contents.
-/

namespace StockTracker

/-! Probe results: the outcome of checking one SKU (main loop, main.py lines 80-113). -/

inductive ProbeResult where
  | inStock : ProbeResult
  | outOfStock (url : String) : ProbeResult
  | probeError (ename : String) (url : String) : ProbeResult
deriving DecidableEq, Repr

/-- One current-OOS record, mirroring the dict literal at main.py lines 109 and 113. -/
structure OosRecord where
  sku : String
  url : String
deriving DecidableEq, Repr

/-- The error-tagged display form of a SKU (main.py line 113). -/
def errorTag (sku ename : String) : String :=
  sku ++ " (Error: " ++ ename ++ ")"

/-- What one loop iteration adds to `current_instock_skus` (main.py line 107). -/
def instockOf : String × ProbeResult → Option String
  | (s, .inStock) => some s
  | _ => none

/-- Accumulation of in-stock SKUs across the main loop (main.py line 107). -/
def currentInstockSkus (probes : List (String × ProbeResult)) : List String :=
  probes.filterMap instockOf

/-- What one loop iteration appends to `current_oos_products`
(main.py line 109 for a confirmed OOS probe, line 113 for an errored probe). -/
def oosRecordOf : String × ProbeResult → Option OosRecord
  | (_, .inStock) => none
  | (s, .outOfStock u) => some ⟨s, u⟩
  | (s, .probeError e u) => some ⟨errorTag s e, u⟩

/-- Accumulation of current-OOS records across the main loop (main.py lines 109 and 113). -/
def currentOosProducts (probes : List (String × ProbeResult)) : List OosRecord :=
  probes.filterMap oosRecordOf

/-- The SKU of an errored probe, `none` otherwise. -/
def erroredOf : String × ProbeResult → Option String
  | (s, .probeError _ _) => some s
  | _ => none

/-- The SKUs whose probe raised an error this run (main.py line 111). -/
def erroredSkus (probes : List (String × ProbeResult)) : List String :=
  probes.filterMap erroredOf

/-- Python `chars.endswith(")")` on a character list: last character is a closing paren. -/
def lastIsParen (l : List Char) : Bool :=
  l.getLast? == some ')'

/-- Python `s.endswith(")")` (main.py line 121). -/
def endsParen (s : String) : Bool :=
  lastIsParen s.data

/-- `current_oos_dict` (main.py line 121): records whose SKU ends in a closing
paren (the error-tagged ones) are filtered out.  As an association list it
represents the dict comprehension; lookups are last-write-wins via `dictGet`. -/
def currentOosDict (prods : List OosRecord) : List OosRecord :=
  prods.filter (fun r => !endsParen r.sku)

/-- Python `d.get(k, dflt)` on an association list built by successive
assignment: the last binding of a key wins. -/
def dictGet (d : List OosRecord) (k dflt : String) : String :=
  match d.reverse.find? (fun r => r.sku == k) with
  | some r => r.url
  | none => dflt

/-- `all_relevant_skus = previous_oos_skus_set | current_oos_skus_set`
(main.py line 126), as a duplicate-free list. -/
def allRelevantSkus (prev dict : List OosRecord) : List String :=
  (prev.map OosRecord.sku ++ dict.map OosRecord.sku).dedup

/-- `sorted(list(all_relevant_skus))` (main.py line 137). -/
def sortedRelevantSkus (prev dict : List OosRecord) : List String :=
  List.insertionSort (· ≤ ·) (allRelevantSkus prev dict)

/-- Python left-justification, the f-string `:<15` format. -/
def padRight (s : String) (w : Nat) : String :=
  s ++ String.mk (List.replicate (w - s.length) ' ')

/-- The transition categories of the report (the `summary` keys, main.py line 131). -/
inductive StatusCat where
  | restocked
  | stillOos
  | newlyOos
  | statusUnknown
deriving DecidableEq, Repr

def restockedLine (sku u : String) : String :=
  padRight "[+] RESTOCKED" 15 ++ ": " ++ sku ++ " (Was OOS: " ++ u ++ ")"

def stillOosLine (sku u : String) : String :=
  padRight "[-] STILL OOS" 15 ++ ": " ++ sku ++ " (Link: " ++ u ++ ")"

def newlyOosLine (sku u : String) : String :=
  padRight "[!] NEWLY OOS" 15 ++ ": " ++ sku ++ " (Link: " ++ u ++ ")"

def statusUnknownLine (sku u : String) : String :=
  padRight "[E] ERROR" 15 ++ ": " ++ sku ++ " (Was OOS: " ++ u ++ ") - Current status unknown (check error?)"

/-- The classification branch chain of main.py lines 138-164, producing the
category, the URL embedded in the line, and the rendered status line. -/
def statusLineFor (prev dict : List OosRecord) (instock : List String) (sku : String) :
    Option (StatusCat × String × String) :=
  if (prev.map OosRecord.sku).contains sku && instock.contains sku then
    some (.restocked, dictGet prev sku "N/A", restockedLine sku (dictGet prev sku "N/A"))
  else if (prev.map OosRecord.sku).contains sku && (dict.map OosRecord.sku).contains sku then
    some (.stillOos, dictGet dict sku "N/A", stillOosLine sku (dictGet dict sku "N/A"))
  else if !(prev.map OosRecord.sku).contains sku && (dict.map OosRecord.sku).contains sku then
    some (.newlyOos, dictGet dict sku "N/A", newlyOosLine sku (dictGet dict sku "N/A"))
  else if (prev.map OosRecord.sku).contains sku && !(dict.map OosRecord.sku).contains sku
      && !instock.contains sku then
    some (.statusUnknown, dictGet prev sku "N/A", statusUnknownLine sku (dictGet prev sku "N/A"))
  else none

/-- The classification precedence table exactly as the specification section 4.2
words it: first match wins among (a) inPrev and inCurrStock giving RESTOCKED with
the previous URL, (b) inPrev and inCurrOos giving STILL_OOS with the current URL,
(c) not inPrev and inCurrOos giving NEWLY_OOS with the current URL, (d) inPrev
and neither current state giving STATUS_UNKNOWN with the previous URL, and (e)
otherwise no line. -/
def specTableEntry (prev dict : List OosRecord) (instock : List String) (sku : String) :
    Option (StatusCat × String) :=
  if (prev.map OosRecord.sku).contains sku ∧ instock.contains sku then
    some (.restocked, dictGet prev sku "N/A")
  else if (prev.map OosRecord.sku).contains sku ∧ (dict.map OosRecord.sku).contains sku then
    some (.stillOos, dictGet dict sku "N/A")
  else if ¬ (prev.map OosRecord.sku).contains sku ∧ (dict.map OosRecord.sku).contains sku then
    some (.newlyOos, dictGet dict sku "N/A")
  else if (prev.map OosRecord.sku).contains sku ∧ ¬ (dict.map OosRecord.sku).contains sku
      ∧ ¬ instock.contains sku then
    some (.statusUnknown, dictGet prev sku "N/A")
  else none

/-- Per-category count over the emitted entries (the `summary` dict increments). -/
def catCount (entries : List (StatusCat × String × String)) (c : StatusCat) : Nat :=
  (entries.filter (fun e => e.1 == c)).length

/-- The classified entries of one run, in report order (main.py lines 137-167). -/
def reportEntries (prev dict : List OosRecord) (instock : List String) :
    List (StatusCat × String × String) :=
  (sortedRelevantSkus prev dict).filterMap (statusLineFor prev dict instock)

/-- The number of relevant SKUs for which the classification chain emits no line. -/
def noLineCount (prev dict : List OosRecord) (instock : List String) : Nat :=
  ((sortedRelevantSkus prev dict).filter
    (fun sku => (statusLineFor prev dict instock sku).isNone)).length

/-- The separator line, thirty equal signs. -/
def eqBar : String :=
  String.mk (List.replicate 30 '=')

/-- The report body after the two header lines (main.py lines 131-176). -/
def reportBody (prev : List OosRecord) (instock : List String) (prods : List OosRecord) :
    List String :=
  let dict := currentOosDict prods
  if allRelevantSkus prev dict = [] then
    ["No out-of-stock items found previously or currently."]
  else
    let entries := reportEntries prev dict instock
    (entries.map (fun e => e.2.2)) ++
      [eqBar, "Summary:",
       "  Restocked:        " ++ toString (catCount entries .restocked),
       "  Still OutOfStock: " ++ toString (catCount entries .stillOos),
       "  Newly OutOfStock: " ++ toString (catCount entries .newlyOos)] ++
      (if 0 < catCount entries .statusUnknown then
        ["  Errors (Prev OOS):" ++ toString (catCount entries .statusUnknown)]
      else []) ++
      ["  Total Currently OOS (incl errors): " ++ toString prods.length]

/-- The full `analysis_report_lines` sequence (main.py lines 128-176); only the
header line carries the run timestamp. -/
def analysisReportLines (ts : String) (prev : List OosRecord) (instock : List String)
    (prods : List OosRecord) : List String :=
  ("Analysis Report - " ++ ts) :: eqBar :: reportBody prev instock prods

/-! Snapshot save (main.py lines 195-201). -/

/-- Ordering of records by SKU, the sort key at main.py line 199. -/
def skuLE (a b : OosRecord) : Prop :=
  a.sku ≤ b.sku

instance : DecidableRel skuLE :=
  fun a b => inferInstanceAs (Decidable (a.sku ≤ b.sku))

instance : IsTotal OosRecord skuLE :=
  ⟨fun a b => le_total a.sku b.sku⟩

instance : IsTrans OosRecord skuLE :=
  ⟨fun _ _ _ hab hbc => le_trans hab hbc⟩

/-- The sort of `current_oos_products` by SKU (main.py line 199). -/
def sortedOosProducts (prods : List OosRecord) : List OosRecord :=
  List.insertionSort skuLE prods

/-- The lines written to the current-OOS file, one tab-delimited record per line
(main.py lines 199-201). -/
def snapshotSaveLines (prods : List OosRecord) : List String :=
  (sortedOosProducts prods).map (fun r => r.sku ++ "\t" ++ r.url)

/-! Snapshot load (main.py lines 38-53). -/

/-- The whitespace characters Python splits and strips on. -/
def isSpaceChar (c : Char) : Bool :=
  c == ' ' || c == '\t' || c == '\n' || c == '\x0d' || c == '\x0b' || c == '\x0c'

/-- Python `line.strip()`. -/
def pyStrip (l : List Char) : List Char :=
  ((l.dropWhile isSpaceChar).reverse.dropWhile isSpaceChar).reverse

/-- Python `line.split(maxsplit=1)`: at most one split, on the first whitespace run. -/
def splitMax1 (l : List Char) : List (List Char) :=
  let l1 := l.dropWhile isSpaceChar
  if l1 = [] then []
  else
    let tok := l1.takeWhile (fun c => !isSpaceChar c)
    let rest := (l1.dropWhile (fun c => !isSpaceChar c)).dropWhile isSpaceChar
    if rest = [] then [tok] else [tok, rest]

/-- Character-list prefix test, a component of substring containment. -/
def leadsWith : List Char → List Char → Bool
  | [], _ => true
  | _ :: _, [] => false
  | p :: ps, c :: cs => p == c && leadsWith ps cs

/-- Python substring containment `pat in s` on character lists. -/
def containsSeq (pat : List Char) : List Char → Bool
  | [] => leadsWith pat []
  | c :: rest => leadsWith pat (c :: rest) || containsSeq pat rest

/-- The error sentinel searched for at main.py line 49. -/
def errorMarker : List Char :=
  "(Error:".data

/-- One iteration of the previous-snapshot load loop (main.py lines 42-50):
strip the line, skip it when blank, split once on whitespace, default the URL
to `"N/A"`, and store the pair unless the SKU token both ends in a closing
paren and contains the error sentinel.  Dict assignment is modelled by
appending; lookup is last-write-wins. -/
def loadLineStep (data : List OosRecord) (line : String) : List OosRecord :=
  let l := pyStrip line.data
  if l = [] then data
  else
    let parts := splitMax1 l
    let sku := parts.headD []
    let url := parts.getD 1 "N/A".data
    if !lastIsParen sku || !containsSeq errorMarker sku then
      data ++ [⟨String.mk sku, String.mk url⟩]
    else data

/-- The previous-snapshot load (main.py lines 38-53): `none` models an absent
file, answered by the `FileNotFoundError` handler with the dict left empty. -/
def loadPreviousData : Option (List String) → List OosRecord
  | none => []
  | some lines => lines.foldl loadLineStep []

/-! File rotation and rewrite (main.py lines 186-201). -/

/-- The two snapshot files' contents; `none` means the file is absent. -/
structure FsState where
  curr : Option String
  prev : Option String
deriving DecidableEq, Repr

/-- `os.replace(CURRENT, PREVIOUS)` under its try/except (main.py lines 186-192):
moves the current file over the previous one; an absent current file raises
`FileNotFoundError`, which is caught, leaving both files untouched. -/
def rotateFiles (fs : FsState) : FsState :=
  match fs.curr with
  | some c => { curr := none, prev := some c }
  | none => fs

/-- Rotation followed by the rewrite of the current-OOS file
(main.py lines 186-201, in program order). -/
def updateOutputFiles (fs : FsState) (content : String) : FsState :=
  let fs1 := rotateFiles fs
  { fs1 with curr := some content }

/-- What line 121's filter keeps of one probe, had every probed SKU been
paren-free: exactly the confirmed out-of-stock records.  Used to state the
amended observation-set claims; proven equal to the code's dict under that
hypothesis in `currentOosDict_eq_confirmed`. -/
def confirmedOf : String × ProbeResult → Option OosRecord
  | (s, .outOfStock u) => some ⟨s, u⟩
  | _ => none

/-! Helper lemmas. -/

theorem containsStr_iff {l : List String} {s : String} : l.contains s = true ↔ s ∈ l := by
  simp [List.contains, List.elem_iff]

theorem endsParen_errorTag (s e : String) : endsParen (errorTag s e) = true := by
  have hp : (")" : String).data = [')'] := rfl
  have h : (errorTag s e).data = (s.data ++ " (Error: ".data ++ e.data) ++ [')'] := by
    rw [errorTag, String.data_append, String.data_append, String.data_append, hp]
  unfold endsParen lastIsParen
  rw [h, List.getLast?_concat]
  rfl

theorem mem_currentInstockSkus {probes : List (String × ProbeResult)} {s : String} :
    s ∈ currentInstockSkus probes ↔ (s, ProbeResult.inStock) ∈ probes := by
  simp only [currentInstockSkus, List.mem_filterMap]
  constructor
  · rintro ⟨⟨a, r⟩, hm, hf⟩
    cases r <;> simp [instockOf] at hf
    exact hf ▸ hm
  · intro h
    exact ⟨_, h, rfl⟩

theorem mem_erroredSkus {probes : List (String × ProbeResult)} {s : String} :
    s ∈ erroredSkus probes ↔ ∃ e u, (s, ProbeResult.probeError e u) ∈ probes := by
  simp only [erroredSkus, List.mem_filterMap]
  constructor
  · rintro ⟨⟨a, r⟩, hm, hf⟩
    cases r <;> simp [erroredOf] at hf
    exact ⟨_, _, hf ▸ hm⟩
  · rintro ⟨e, u, h⟩
    exact ⟨_, h, rfl⟩

theorem mem_confirmedKeys {probes : List (String × ProbeResult)} {s : String} :
    s ∈ (probes.filterMap confirmedOf).map OosRecord.sku ↔
      ∃ u, (s, ProbeResult.outOfStock u) ∈ probes := by
  simp only [List.mem_map, List.mem_filterMap]
  constructor
  · rintro ⟨r, ⟨⟨a, pr⟩, hm, hf⟩, hsku⟩
    cases pr <;> simp [confirmedOf] at hf
    subst hf
    have ha : a = s := hsku
    subst ha
    exact ⟨_, hm⟩
  · rintro ⟨u, hm⟩
    exact ⟨⟨s, u⟩, ⟨_, hm, rfl⟩, rfl⟩

theorem nodupKeys_probe_eq {probes : List (String × ProbeResult)} {s : String}
    {a b : ProbeResult} (hn : (probes.map Prod.fst).Nodup)
    (ha : (s, a) ∈ probes) (hb : (s, b) ∈ probes) : a = b := by
  induction probes with
  | nil => cases ha
  | cons p rest ih =>
    rw [List.map_cons, List.nodup_cons] at hn
    cases ha with
    | head =>
      cases hb with
      | head => rfl
      | tail _ hb => exact absurd (List.mem_map_of_mem Prod.fst hb) hn.1
    | tail _ ha =>
      cases hb with
      | head => exact absurd (List.mem_map_of_mem Prod.fst ha) hn.1
      | tail _ hb => exact ih hn.2 ha hb

theorem currentOosDict_eq_confirmed {probes : List (String × ProbeResult)}
    (h2 : ∀ p ∈ probes, endsParen p.1 = false) :
    currentOosDict (currentOosProducts probes) = probes.filterMap confirmedOf := by
  induction probes with
  | nil => rfl
  | cons p rest ih =>
    have h2r : ∀ q ∈ rest, endsParen q.1 = false :=
      fun q hq => h2 q (List.mem_cons_of_mem _ hq)
    obtain ⟨b, r⟩ := p
    cases r with
    | inStock =>
      simpa [currentOosProducts, currentOosDict, oosRecordOf, confirmedOf,
        List.filterMap_cons] using ih h2r
    | outOfStock u =>
      have hb : endsParen b = false := h2 (b, .outOfStock u) (List.mem_cons_self _ _)
      simpa [currentOosProducts, currentOosDict, oosRecordOf, confirmedOf,
        List.filterMap_cons, List.filter_cons, hb] using ih h2r
    | probeError e u =>
      simpa [currentOosProducts, currentOosDict, oosRecordOf, confirmedOf,
        List.filterMap_cons, List.filter_cons, endsParen_errorTag] using ih h2r

theorem confirmedSkus_sublist (probes : List (String × ProbeResult)) :
    List.Sublist ((probes.filterMap confirmedOf).map OosRecord.sku) (probes.map Prod.fst) := by
  induction probes with
  | nil => simp
  | cons p rest ih =>
    obtain ⟨b, r⟩ := p
    cases r with
    | inStock => simpa [confirmedOf, List.filterMap_cons] using ih.cons b
    | outOfStock u => simpa [confirmedOf, List.filterMap_cons] using ih.cons₂ b
    | probeError e u => simpa [confirmedOf, List.filterMap_cons] using ih.cons b

theorem length_products_split (probes : List (String × ProbeResult)) :
    (currentOosProducts probes).length =
      (probes.filterMap confirmedOf).length + (erroredSkus probes).length := by
  induction probes with
  | nil => rfl
  | cons p rest ih =>
    obtain ⟨b, r⟩ := p
    cases r <;>
      simp [currentOosProducts, erroredSkus, oosRecordOf, confirmedOf, erroredOf,
        List.filterMap_cons] at ih ⊢ <;>
      omega

theorem length_filterMap_add_none {α β : Type} (f : α → Option β) (l : List α) :
    (l.filterMap f).length + (l.filter (fun x => (f x).isNone)).length = l.length := by
  induction l with
  | nil => rfl
  | cons x rest ih =>
    cases hf : f x <;>
      simp [List.filterMap_cons, List.filter_cons, hf] <;>
      omega

theorem dictKeys_imp_oos_probe {probes : List (String × ProbeResult)} {s : String}
    (hd : s ∈ (currentOosDict (currentOosProducts probes)).map OosRecord.sku) :
    ∃ u, (s, ProbeResult.outOfStock u) ∈ probes := by
  obtain ⟨r, hr, hsku⟩ := List.mem_map.mp hd
  obtain ⟨hrp, hpar⟩ := List.mem_filter.mp hr
  obtain ⟨⟨a, pr⟩, hm, hf⟩ := List.mem_filterMap.mp hrp
  cases pr with
  | inStock => simp [oosRecordOf] at hf
  | outOfStock u =>
    simp [oosRecordOf] at hf
    subst hf
    have ha : a = s := hsku
    subst ha
    exact ⟨u, hm⟩
  | probeError e u =>
    simp [oosRecordOf] at hf
    subst hf
    simp [endsParen_errorTag] at hpar

theorem catCount_total (entries : List (StatusCat × String × String)) :
    catCount entries .restocked + catCount entries .stillOos + catCount entries .newlyOos
      + catCount entries .statusUnknown = entries.length := by
  induction entries with
  | nil => rfl
  | cons e rest ih =>
    obtain ⟨c, rest'⟩ := e
    cases c <;> simp [catCount, List.filter_cons] at ih ⊢ <;> omega

/-! Claim theorems. -/

/-- C1: the spec claims an error exclusion round-trip — a snapshot line persisted
for an errored SKU (SKU text with the appended error tag, tab, URL) should be
excluded from the map produced by the next run's load.  The code violates this:
`line.split(maxsplit=1)` splits at the space inside the error tag before the
error-remnant check runs, so the check never matches the program's own persisted
format and the errored SKU is loaded under its clean identifier (with the tag
remnant absorbed into the URL field). -/
theorem error_tagged_line_not_excluded_on_load :
    loadPreviousData (some ["SKU-9 (Error: Timeout)\thttps://example-store.com/p9"]) =
      [⟨"SKU-9", "(Error: Timeout)\thttps://example-store.com/p9"⟩] ∧
    "SKU-9" ∈ (loadPreviousData
      (some ["SKU-9 (Error: Timeout)\thttps://example-store.com/p9"])).map OosRecord.sku :=
  ⟨by decide, by decide⟩

/-- C2: for every SKU in the relevant set, the classification the code assigns
(category and embedded URL) equals the specification's precedence table:
inPrev and inCurrStock give RESTOCKED with the previous URL; inPrev and
inCurrOos give STILL_OOS with the current URL; not inPrev and inCurrOos give
NEWLY_OOS with the current URL; inPrev and neither give STATUS_UNKNOWN with the
previous URL; otherwise no line is emitted. -/
theorem classification_matches_spec_table (prev dict : List OosRecord)
    (instock : List String) (sku : String)
    (h : sku ∈ allRelevantSkus prev dict) :
    (statusLineFor prev dict instock sku).map (fun e => (e.1, e.2.1)) =
      specTableEntry prev dict instock sku := by
  unfold statusLineFor specTableEntry
  cases hP : (prev.map OosRecord.sku).contains sku <;>
    cases hO : (dict.map OosRecord.sku).contains sku <;>
      cases hS : instock.contains sku <;>
        simp [hP, hO, hS]

theorem classification_matches_spec_table_witness :
    "A" ∈ allRelevantSkus [⟨"A", "u1"⟩] [⟨"B", "u2"⟩] ∧
    (statusLineFor [⟨"A", "u1"⟩] [⟨"B", "u2"⟩] ["A"] "A").map (fun e => (e.1, e.2.1)) =
      specTableEntry [⟨"A", "u1"⟩] [⟨"B", "u2"⟩] ["A"] "A" :=
  ⟨by decide,
    classification_matches_spec_table [⟨"A", "u1"⟩] [⟨"B", "u2"⟩] ["A"] "A" (by decide)⟩

/-- C3: for every SKU in the relevant set, exactly one of the five outcomes
{RESTOCKED, STILL_OOS, NEWLY_OOS, STATUS_UNKNOWN, no-line} holds, and the four
per-category counts sum to the number of relevant SKUs minus the number of
no-line SKUs. -/
theorem classification_exhaustive_exclusive (prev dict : List OosRecord)
    (instock : List String) :
    (∀ sku ∈ allRelevantSkus prev dict,
      ([some StatusCat.restocked, some StatusCat.stillOos, some StatusCat.newlyOos,
        some StatusCat.statusUnknown, (none : Option StatusCat)].filter
          (fun c => c == (statusLineFor prev dict instock sku).map (fun e => e.1))).length
        = 1) ∧
    catCount (reportEntries prev dict instock) .restocked
        + catCount (reportEntries prev dict instock) .stillOos
        + catCount (reportEntries prev dict instock) .newlyOos
        + catCount (reportEntries prev dict instock) .statusUnknown
      = (allRelevantSkus prev dict).length - noLineCount prev dict instock := by
  constructor
  · intro sku _
    rcases ho : (statusLineFor prev dict instock sku).map (fun e => e.1) with _ | c
    · rw [ho]; decide
    · cases c <;> (rw [ho]; decide)
  · have h1 := catCount_total (reportEntries prev dict instock)
    have h2 := length_filterMap_add_none (statusLineFor prev dict instock)
      (sortedRelevantSkus prev dict)
    have h3 : (sortedRelevantSkus prev dict).length = (allRelevantSkus prev dict).length := by
      unfold sortedRelevantSkus
      apply List.length_insertionSort
    unfold reportEntries noLineCount at *
    omega

theorem classification_exhaustive_exclusive_witness :
    ([some StatusCat.restocked, some StatusCat.stillOos, some StatusCat.newlyOos,
        some StatusCat.statusUnknown, (none : Option StatusCat)].filter
          (fun c => c ==
            (statusLineFor [⟨"A", "u1"⟩] [⟨"B", "u2"⟩] ["A"] "A").map (fun e => e.1))).length
      = 1 ∧
    catCount (reportEntries [⟨"A", "u1"⟩] [⟨"B", "u2"⟩] ["A"]) .restocked
        + catCount (reportEntries [⟨"A", "u1"⟩] [⟨"B", "u2"⟩] ["A"]) .stillOos
        + catCount (reportEntries [⟨"A", "u1"⟩] [⟨"B", "u2"⟩] ["A"]) .newlyOos
        + catCount (reportEntries [⟨"A", "u1"⟩] [⟨"B", "u2"⟩] ["A"]) .statusUnknown
      = (allRelevantSkus [⟨"A", "u1"⟩] [⟨"B", "u2"⟩]).length
          - noLineCount [⟨"A", "u1"⟩] [⟨"B", "u2"⟩] ["A"] :=
  ⟨(classification_exhaustive_exclusive [⟨"A", "u1"⟩] [⟨"B", "u2"⟩] ["A"]).1 "A" (by decide),
    (classification_exhaustive_exclusive [⟨"A", "u1"⟩] [⟨"B", "u2"⟩] ["A"]).2⟩

/-- C4: the reconciliation engine is deterministic — identical inputs give a
byte-identical line sequence; the classification depends on no wall clock (only
the header line carries the timestamp, so everything after it is independent of
the timestamp); and the classified SKUs are processed in lexicographically
ascending order for every input. -/
theorem report_deterministic_and_sorted (ts ts2 : String) (prev : List OosRecord)
    (instock : List String) (prods : List OosRecord) :
    analysisReportLines ts prev instock prods = analysisReportLines ts prev instock prods ∧
    (analysisReportLines ts prev instock prods).drop 1 =
      (analysisReportLines ts2 prev instock prods).drop 1 ∧
    List.Sorted (· ≤ ·) (sortedRelevantSkus prev (currentOosDict prods)) :=
  ⟨rfl, rfl, List.sorted_insertionSort _ _⟩

/-- C7: the snapshot save writes one tab-delimited record per line, with the
records sorted ascending by SKU (and forming a permutation of the accumulated
current-OOS records), for every input list regardless of probe order. -/
theorem snapshot_save_sorted_lines (prods : List OosRecord) :
    List.Sorted skuLE (sortedOosProducts prods) ∧
    List.Perm (sortedOosProducts prods) prods ∧
    snapshotSaveLines prods = (sortedOosProducts prods).map (fun r => r.sku ++ "\t" ++ r.url) :=
  ⟨List.sorted_insertionSort skuLE prods, List.perm_insertionSort skuLE prods, rfl⟩

/-- C8: loading a nonexistent previous snapshot file yields the empty map, not
an error (first-run semantics). -/
theorem load_missing_file_yields_empty : loadPreviousData none = [] := rfl

/-- C9: rotation with no current snapshot file is a no-op, not an error — the
previous-path file is untouched if it existed and absent if not; and when the
current file does exist, rotation happens strictly before the new snapshot is
written, so after the update the previous path holds the old current content. -/
theorem rotate_missing_noop_write_after_rotate (p : Option String) (c body : String) :
    rotateFiles ⟨none, p⟩ = ⟨none, p⟩ ∧
    updateOutputFiles ⟨none, p⟩ body = ⟨some body, p⟩ ∧
    updateOutputFiles ⟨some c, p⟩ body = ⟨some body, some c⟩ :=
  ⟨rfl, rfl, rfl⟩

/-- C5 counterexample: the claimed partition fails as stated.  With the single
probe of SKU `"A)"` returning a confirmed out-of-stock result — every requested
SKU probed exactly once — the probed SKU lies in none of {inStock, confirmed-OOS
keys, errored}, because the dict comprehension's trailing-paren filter drops its
record; so it does not lie in exactly one of them. -/
theorem observation_partition_counterexample :
    ([("A)", ProbeResult.outOfStock "u")].map Prod.fst).Nodup ∧
    "A)" ∈ [("A)", ProbeResult.outOfStock "u")].map Prod.fst ∧
    "A)" ∉ currentInstockSkus [("A)", ProbeResult.outOfStock "u")] ∧
    "A)" ∉ (currentOosDict
      (currentOosProducts [("A)", ProbeResult.outOfStock "u")])).map OosRecord.sku ∧
    "A)" ∉ erroredSkus [("A)", ProbeResult.outOfStock "u")] := by
  decide

/-- C5 amended: when every requested SKU is probed exactly once, the in-stock
set and the confirmed-OOS key set are disjoint; when additionally no probed
SKU's raw identifier ends with a closing paren, every probed SKU lies in
exactly one of {inStock, confirmed-OOS keys, errored}. -/
theorem observation_partition (probes : List (String × ProbeResult))
    (h1 : (probes.map Prod.fst).Nodup) :
    (∀ s, s ∈ currentInstockSkus probes →
        s ∉ (currentOosDict (currentOosProducts probes)).map OosRecord.sku) ∧
    ((∀ p ∈ probes, endsParen p.1 = false) →
      ∀ s ∈ probes.map Prod.fst,
      (s ∈ currentInstockSkus probes
          ∧ s ∉ (currentOosDict (currentOosProducts probes)).map OosRecord.sku
          ∧ s ∉ erroredSkus probes) ∨
      (s ∉ currentInstockSkus probes
          ∧ s ∈ (currentOosDict (currentOosProducts probes)).map OosRecord.sku
          ∧ s ∉ erroredSkus probes) ∨
      (s ∉ currentInstockSkus probes
          ∧ s ∉ (currentOosDict (currentOosProducts probes)).map OosRecord.sku
          ∧ s ∈ erroredSkus probes)) := by
  constructor
  · intro s hi hd
    obtain ⟨u, hm2⟩ := dictKeys_imp_oos_probe hd
    cases nodupKeys_probe_eq h1 (mem_currentInstockSkus.mp hi) hm2
  · intro h2 s hs
    rw [currentOosDict_eq_confirmed h2]
    obtain ⟨⟨a, r⟩, hm, rfl⟩ := List.mem_map.mp hs
    cases r with
    | inStock =>
      refine Or.inl ⟨mem_currentInstockSkus.mpr hm, ?_, ?_⟩
      · intro hd
        obtain ⟨u, hm2⟩ := mem_confirmedKeys.mp hd
        cases nodupKeys_probe_eq h1 hm hm2
      · intro he
        obtain ⟨e, u, hm2⟩ := mem_erroredSkus.mp he
        cases nodupKeys_probe_eq h1 hm hm2
    | outOfStock u =>
      refine Or.inr (Or.inl ⟨?_, mem_confirmedKeys.mpr ⟨u, hm⟩, ?_⟩)
      · intro hi
        cases nodupKeys_probe_eq h1 (mem_currentInstockSkus.mp hi) hm
      · intro he
        obtain ⟨e, v, hm2⟩ := mem_erroredSkus.mp he
        cases nodupKeys_probe_eq h1 hm2 hm
    | probeError e u =>
      refine Or.inr (Or.inr ⟨?_, ?_, mem_erroredSkus.mpr ⟨e, u, hm⟩⟩)
      · intro hi
        cases nodupKeys_probe_eq h1 (mem_currentInstockSkus.mp hi) hm
      · intro hd
        obtain ⟨v, hm2⟩ := mem_confirmedKeys.mp hd
        cases nodupKeys_probe_eq h1 hm2 hm

theorem observation_partition_witness :
    (([("A", ProbeResult.inStock), ("B", ProbeResult.outOfStock "u"),
        ("C", ProbeResult.probeError "Timeout" "v")].map Prod.fst).Nodup) ∧
    (∀ s, s ∈ currentInstockSkus [("A", ProbeResult.inStock), ("B", ProbeResult.outOfStock "u"),
        ("C", ProbeResult.probeError "Timeout" "v")] →
      s ∉ (currentOosDict (currentOosProducts [("A", ProbeResult.inStock),
        ("B", ProbeResult.outOfStock "u"),
        ("C", ProbeResult.probeError "Timeout" "v")])).map OosRecord.sku) ∧
    (∀ p ∈ [("A", ProbeResult.inStock), ("B", ProbeResult.outOfStock "u"),
        ("C", ProbeResult.probeError "Timeout" "v")], endsParen p.1 = false) ∧
    (∀ s ∈ [("A", ProbeResult.inStock), ("B", ProbeResult.outOfStock "u"),
        ("C", ProbeResult.probeError "Timeout" "v")].map Prod.fst,
      (s ∈ currentInstockSkus [("A", ProbeResult.inStock), ("B", ProbeResult.outOfStock "u"),
          ("C", ProbeResult.probeError "Timeout" "v")]
        ∧ s ∉ (currentOosDict (currentOosProducts [("A", ProbeResult.inStock),
            ("B", ProbeResult.outOfStock "u"),
            ("C", ProbeResult.probeError "Timeout" "v")])).map OosRecord.sku
        ∧ s ∉ erroredSkus [("A", ProbeResult.inStock), ("B", ProbeResult.outOfStock "u"),
            ("C", ProbeResult.probeError "Timeout" "v")]) ∨
      (s ∉ currentInstockSkus [("A", ProbeResult.inStock), ("B", ProbeResult.outOfStock "u"),
          ("C", ProbeResult.probeError "Timeout" "v")]
        ∧ s ∈ (currentOosDict (currentOosProducts [("A", ProbeResult.inStock),
            ("B", ProbeResult.outOfStock "u"),
            ("C", ProbeResult.probeError "Timeout" "v")])).map OosRecord.sku
        ∧ s ∉ erroredSkus [("A", ProbeResult.inStock), ("B", ProbeResult.outOfStock "u"),
            ("C", ProbeResult.probeError "Timeout" "v")]) ∨
      (s ∉ currentInstockSkus [("A", ProbeResult.inStock), ("B", ProbeResult.outOfStock "u"),
          ("C", ProbeResult.probeError "Timeout" "v")]
        ∧ s ∉ (currentOosDict (currentOosProducts [("A", ProbeResult.inStock),
            ("B", ProbeResult.outOfStock "u"),
            ("C", ProbeResult.probeError "Timeout" "v")])).map OosRecord.sku
        ∧ s ∈ erroredSkus [("A", ProbeResult.inStock), ("B", ProbeResult.outOfStock "u"),
            ("C", ProbeResult.probeError "Timeout" "v")])) :=
  ⟨by decide, (observation_partition _ (by decide)).1, by decide,
    (observation_partition _ (by decide)).2 (by decide)⟩

/-- C6 counterexample: the claimed total fails as stated.  With the single
probe of SKU `"B)"` confirmed out of stock, the persisted currently-OOS total
counts one record while the confirmed-OOS map is empty and no probe errored. -/
theorem total_oos_counterexample :
    ([("B)", ProbeResult.outOfStock "u")].map Prod.fst).Nodup ∧
    (currentOosProducts [("B)", ProbeResult.outOfStock "u")]).length ≠
      ((currentOosDict (currentOosProducts [("B)", ProbeResult.outOfStock "u")])).map
          OosRecord.sku).dedup.length
        + (erroredSkus [("B)", ProbeResult.outOfStock "u")]).length := by
  decide

/-- C6 amended: when every requested SKU is probed exactly once and no probed
SKU's raw identifier ends with a closing paren, the grand total of
currently-OOS entries reported in the summary (the length of
`current_oos_products`) equals the number of confirmed-OOS keys plus the number
of SKUs whose probe errored. -/
theorem total_oos_eq_confirmed_plus_errored (probes : List (String × ProbeResult))
    (h1 : (probes.map Prod.fst).Nodup)
    (h2 : ∀ p ∈ probes, endsParen p.1 = false) :
    (currentOosProducts probes).length =
      ((currentOosDict (currentOosProducts probes)).map OosRecord.sku).dedup.length
        + (erroredSkus probes).length := by
  rw [currentOosDict_eq_confirmed h2]
  have hnd : ((probes.filterMap confirmedOf).map OosRecord.sku).Nodup :=
    (confirmedSkus_sublist probes).nodup h1
  rw [List.dedup_eq_self.mpr hnd, List.length_map]
  exact length_products_split probes

theorem total_oos_witness :
    (([("A", ProbeResult.inStock), ("B", ProbeResult.outOfStock "u"),
        ("C", ProbeResult.probeError "Timeout" "v")].map Prod.fst).Nodup) ∧
    (∀ p ∈ [("A", ProbeResult.inStock), ("B", ProbeResult.outOfStock "u"),
        ("C", ProbeResult.probeError "Timeout" "v")], endsParen p.1 = false) ∧
    (currentOosProducts [("A", ProbeResult.inStock), ("B", ProbeResult.outOfStock "u"),
        ("C", ProbeResult.probeError "Timeout" "v")]).length =
      ((currentOosDict (currentOosProducts [("A", ProbeResult.inStock),
          ("B", ProbeResult.outOfStock "u"),
          ("C", ProbeResult.probeError "Timeout" "v")])).map OosRecord.sku).dedup.length
        + (erroredSkus [("A", ProbeResult.inStock), ("B", ProbeResult.outOfStock "u"),
            ("C", ProbeResult.probeError "Timeout" "v")]).length :=
  ⟨by decide, by decide, total_oos_eq_confirmed_plus_errored _ (by decide) (by decide)⟩

/-- C10: a SKU probed out of stock whose raw identifier ends with a closing
paren is excluded from the confirmed-OOS map — so this run it is never
classified STILL_OOS or NEWLY_OOS — yet its record is still written to the
persisted current-OOS file and still counted in the currently-OOS total. -/
theorem paren_sku_excluded_from_dict_but_persisted (probes : List (String × ProbeResult))
    (prev : List OosRecord) (instock : List String) (s u : String)
    (h1 : (s, ProbeResult.outOfStock u) ∈ probes) (h2 : endsParen s = true) :
    s ∉ (currentOosDict (currentOosProducts probes)).map OosRecord.sku ∧
    (statusLineFor prev (currentOosDict (currentOosProducts probes)) instock s).map
        (fun e => e.1) ≠ some StatusCat.stillOos ∧
    (statusLineFor prev (currentOosDict (currentOosProducts probes)) instock s).map
        (fun e => e.1) ≠ some StatusCat.newlyOos ∧
    (s ++ "\t" ++ u) ∈ snapshotSaveLines (currentOosProducts probes) ∧
    1 ≤ (currentOosProducts probes).length := by
  have hrec : (⟨s, u⟩ : OosRecord) ∈ currentOosProducts probes :=
    List.mem_filterMap.mpr ⟨(s, .outOfStock u), h1, rfl⟩
  have hnot : s ∉ (currentOosDict (currentOosProducts probes)).map OosRecord.sku := by
    intro hd
    obtain ⟨r, hr, hsku⟩ := List.mem_map.mp hd
    have := (List.mem_filter.mp hr).2
    rw [hsku] at this
    simp [h2] at this
  have hco : ((currentOosDict (currentOosProducts probes)).map OosRecord.sku).contains s
      = false := by
    cases hc : ((currentOosDict (currentOosProducts probes)).map OosRecord.sku).contains s
    · rfl
    · exact absurd (containsStr_iff.mp hc) hnot
  have hdisj : (statusLineFor prev (currentOosDict (currentOosProducts probes)) instock s).map
        (fun e => e.1) = some StatusCat.restocked ∨
      (statusLineFor prev (currentOosDict (currentOosProducts probes)) instock s).map
        (fun e => e.1) = some StatusCat.statusUnknown ∨
      (statusLineFor prev (currentOosDict (currentOosProducts probes)) instock s).map
        (fun e => e.1) = none := by
    have hcoP : ∀ r ∈ currentOosDict (currentOosProducts probes), ¬ r.sku = s := by
      intro r hr hrs
      exact hnot (List.mem_map.mpr ⟨r, hr, hrs⟩)
    have hcoE : ¬ ∃ r ∈ currentOosDict (currentOosProducts probes), r.sku = s := by
      rintro ⟨r, hr, hrs⟩
      exact hnot (List.mem_map.mpr ⟨r, hr, hrs⟩)
    unfold statusLineFor
    cases hP : (prev.map OosRecord.sku).contains s <;>
      cases hS : instock.contains s <;>
        simp [hP, hS, hco, hcoP, hcoE]
  refine ⟨hnot, ?_, ?_, ?_, ?_⟩
  · rcases hdisj with h | h | h <;> simp [h]
  · rcases hdisj with h | h | h <;> simp [h]
  · have hmem : (⟨s, u⟩ : OosRecord) ∈ sortedOosProducts (currentOosProducts probes) :=
      ((List.perm_insertionSort skuLE (currentOosProducts probes)).mem_iff).mpr hrec
    exact List.mem_map_of_mem (fun r => r.sku ++ "\t" ++ r.url) hmem
  · exact List.length_pos.mpr (List.ne_nil_of_mem hrec)

theorem paren_sku_excluded_witness :
    ("A)", ProbeResult.outOfStock "u") ∈ [("A)", ProbeResult.outOfStock "u")] ∧
    endsParen "A)" = true ∧
    "A)" ∉ (currentOosDict
      (currentOosProducts [("A)", ProbeResult.outOfStock "u")])).map OosRecord.sku ∧
    ("A)" ++ "\t" ++ "u") ∈ snapshotSaveLines
      (currentOosProducts [("A)", ProbeResult.outOfStock "u")]) :=
  ⟨by decide, by decide,
    (paren_sku_excluded_from_dict_but_persisted [("A)", ProbeResult.outOfStock "u")]
      [] [] "A)" "u" (by decide) (by decide)).1,
    (paren_sku_excluded_from_dict_but_persisted [("A)", ProbeResult.outOfStock "u")]
      [] [] "A)" "u" (by decide) (by decide)).2.2.2.1⟩

end StockTracker
